import Mathlib

/-!
Verification of the traffic simulation engine of the repository
(server/services/simulatorService.js and
server/controllers/simulatorController.js), via a shallow embedding.

Randomness is modelled by passing the values drawn from the random
source explicitly (rationals standing for the values produced by
Math.random(), which lie in [0,1)).  Concurrency is modelled by an
explicit event trace whose events correspond to the mutations the
JavaScript code performs between its await points.
-/

namespace Simulator

/-- A user behavior profile, mirroring the entries of the
USER_BEHAVIORS table in simulatorService.js.  The weight and the
error tolerance are rationals; the session length and request delay
ranges are the min/max integer fields of the source objects. -/
structure Behavior where
  name : String
  weight : ℚ
  sessionLengthMin : ℕ
  sessionLengthMax : ℕ
  requestDelayMin : ℕ
  requestDelayMax : ℕ
  errorTolerance : ℚ
deriving Repr, DecidableEq

/-- The Quick Browser profile from the USER_BEHAVIORS table. -/
def quickBrowser : Behavior :=
  { name := "Quick Browser", weight := 3/10
    sessionLengthMin := 2, sessionLengthMax := 5
    requestDelayMin := 500, requestDelayMax := 1500
    errorTolerance := 8/10 }

/-- The Thorough Researcher profile from the USER_BEHAVIORS table. -/
def thoroughResearcher : Behavior :=
  { name := "Thorough Researcher", weight := 4/10
    sessionLengthMin := 8, sessionLengthMax := 15
    requestDelayMin := 2000, requestDelayMax := 5000
    errorTolerance := 9/10 }

/-- The Casual User profile from the USER_BEHAVIORS table. -/
def casualUser : Behavior :=
  { name := "Casual User", weight := 2/10
    sessionLengthMin := 3, sessionLengthMax := 8
    requestDelayMin := 1000, requestDelayMax := 3000
    errorTolerance := 6/10 }

/-- The Impatient User profile from the USER_BEHAVIORS table. -/
def impatientUser : Behavior :=
  { name := "Impatient User", weight := 1/10
    sessionLengthMin := 1, sessionLengthMax := 3
    requestDelayMin := 200, requestDelayMax := 800
    errorTolerance := 3/10 }

/-- The fixed behavior catalog USER_BEHAVIORS of simulatorService.js. -/
def USER_BEHAVIORS : List Behavior :=
  [quickBrowser, thoroughResearcher, casualUser, impatientUser]

/-- The walk of selectUserBehavior: starting from an accumulated
cumulative weight, return the first behavior whose cumulative weight is
greater than or equal to the draw (the source tests
random <= cumulativeWeight), or none if the walk falls through. -/
def selectLoop (r : ℚ) : ℚ → List Behavior → Option Behavior
  | _, [] => none
  | cum, b :: rest =>
      if r ≤ cum + b.weight then some b else selectLoop r (cum + b.weight) rest

/-- SimulatorService.selectUserBehavior: weighted selection over the
catalog with the draw r standing for Math.random(); falls back to
USER_BEHAVIORS[0] if the walk falls through. -/
def selectUserBehavior (r : ℚ) : Behavior :=
  (selectLoop r 0 USER_BEHAVIORS).getD quickBrowser

/-- Modelled from the claim wording for comparison: the same walk but
returning the first behavior whose cumulative weight strictly exceeds
the draw, the reading of the phrase "the first profile whose cumulative
weight exceeds the draw". -/
def selectLoopStrict (r : ℚ) : ℚ → List Behavior → Option Behavior
  | _, [] => none
  | cum, b :: rest =>
      if r < cum + b.weight then some b else selectLoopStrict r (cum + b.weight) rest

/-- The strict-exceedance variant of behavior selection, following the
wording of the specification rather than the source. -/
def selectUserBehaviorStrict (r : ℚ) : Behavior :=
  (selectLoopStrict r 0 USER_BEHAVIORS).getD quickBrowser

/-- Math.floor(r * (max - min) + min), the session length draw of
SimulatorService.simulateUserSession, with r standing for the value of
Math.random(). -/
def sessionLengthDraw (b : Behavior) (r : ℚ) : ℤ :=
  ⌊r * ((b.sessionLengthMax : ℚ) - (b.sessionLengthMin : ℚ)) + (b.sessionLengthMin : ℚ)⌋

/-- SimulatorService.calculateAvgResponseTime: returns 0 for an empty
sample list; otherwise Math.round(sum / length).  For nonnegative x,
Math.round(x) = floor(x + 1/2), and floor(s/n + 1/2) equals the natural
division (2*s + n) / (2*n). -/
def calculateAvgResponseTime (responseTimes : List ℕ) : ℕ :=
  if responseTimes.length = 0 then 0
  else (2 * responseTimes.sum + responseTimes.length) / (2 * responseTimes.length)

/-- The mutable statistics record owned by one simulation, mirroring
the statistics object created in SimulatorService.startSimulation.
The errorCounts object is modelled as the map it denotes, from error
kind to occurrence count, reading 0 at absent keys. -/
structure Stats where
  totalRequests : ℕ
  successfulRequests : ℕ
  failedRequests : ℕ
  responseTimes : List ℕ
  sessionDurations : List ℕ
  errorCounts : String → ℕ

/-- The fresh statistics record of a newly started simulation; the
errorCounts object reads 0 at every absent key
(the source reads errorCounts[errorType] || 0). -/
def emptyStats : Stats :=
  { totalRequests := 0, successfulRequests := 0, failedRequests := 0
    responseTimes := [], sessionDurations := [], errorCounts := fun _ => 0 }

/-- errorCounts[errorType] = (errorCounts[errorType] || 0) + 1. -/
def bumpCount (m : String → ℕ) (k : String) : String → ℕ :=
  fun x => if x = k then m x + 1 else m x

/-- One simulation object, mirroring the object built by
SimulatorService.startSimulation (start time omitted: wall-clock time
plays no role in the verified properties). -/
structure SimState where
  isRunning : Bool
  sessions : ℤ
  delay : ℤ
  completed : ℕ
  failed : ℕ
  statistics : Stats

/-- The simulation record created by SimulatorService.startSimulation:
running, with zeroed counters and fresh statistics. -/
def newSimulation (sessions delay : ℤ) : SimState :=
  { isRunning := true, sessions := sessions, delay := delay
    completed := 0, failed := 0, statistics := emptyStats }

/-- The outcome of one outbound analyze call, as observed by
simulateUserRequest: either a success with its latency, or a thrown
error with its latency and the optional error code carried by the
error object (error.code may be absent). -/
inductive ReqOutcome where
  | success (lat : ℕ)
  | failure (lat : ℕ) (code : Option String)
deriving Repr, DecidableEq

/-- One attempt of the request executor: the outcome of the outbound
call together with the Math.random() draw consulted against the
error tolerance when the attempt fails. -/
structure Attempt where
  outcome : ReqOutcome
  retryDraw : ℚ
deriving Repr, DecidableEq

/-- The statistics mutation of a failed attempt in simulateUserRequest:
totalRequests++ at entry, then responseTimes.push and
failedRequests++ in the catch block. -/
def recordFailedAttempt (s : Stats) (lat : ℕ) : Stats :=
  { s with totalRequests := s.totalRequests + 1
           responseTimes := s.responseTimes ++ [lat]
           failedRequests := s.failedRequests + 1 }

/-- The statistics mutation of a successful attempt in
simulateUserRequest: totalRequests++ at entry, then
responseTimes.push and successfulRequests++. -/
def recordSuccessfulAttempt (s : Stats) (lat : ℕ) : Stats :=
  { s with totalRequests := s.totalRequests + 1
           responseTimes := s.responseTimes ++ [lat]
           successfulRequests := s.successfulRequests + 1 }

/-- How one simulateUserRequest call returns to its caller: a normal
return, or a thrown error object carrying its optional code field. -/
inductive ReqResult where
  | ok
  | thrown (code : Option String)
deriving Repr, DecidableEq

/-- SimulatorService.simulateUserRequest, driven by the list of
attempt outcomes the outbound endpoint and random source produce.
Each attempt increments totalRequests, records its latency sample and
its success or failure counter directly into the shared statistics;
on failure, if the retry draw is below the behavior error tolerance
the call recurses on the next attempt (the retry of the same logical
request), otherwise the error propagates to the caller.  none means
the attempt oracle was exhausted. -/
def simulateUserRequest (tol : ℚ) : List Attempt → Stats → Option (Stats × ReqResult)
  | [], _ => none
  | a :: rest, s =>
      match a.outcome with
      | .success lat => some (recordSuccessfulAttempt s lat, .ok)
      | .failure lat code =>
          if a.retryDraw < tol then
            simulateUserRequest tol rest (recordFailedAttempt s lat)
          else
            some (recordFailedAttempt s lat, .thrown code)

/-- The request loop of SimulatorService.simulateUserSession:
for (req = 0; req < sessionLength && simulation.isRunning; req++).
running idx is the value of simulation.isRunning observed at the loop
check of iteration idx (the flag is written concurrently by stop);
oracles idx is the attempt oracle feeding the simulateUserRequest call
of iteration idx; n is the number of remaining iterations.  Returns
the statistics together with the thrown error code if an iteration
threw, or none when an attempt oracle was exhausted.  Think-time
pauses mutate no observed state and are omitted. -/
def sessionLoop (tol : ℚ) (running : ℕ → Bool) (oracles : ℕ → List Attempt) :
    ℕ → ℕ → Stats → Option (Stats × ReqResult)
  | 0, _, s => some (s, .ok)
  | n + 1, idx, s =>
      if running idx then
        match simulateUserRequest tol (oracles idx) s with
        | none => none
        | some (s', .thrown code) => some (s', .thrown code)
        | some (s', .ok) => sessionLoop tol running oracles n (idx + 1) s'
      else
        some (s, .ok)

/-- SimulatorService.simulateUserSession.  lenDraw is the
Math.random() value of the session length draw, dur the measured
session duration pushed on completion.  The try block runs the request
loop; falling out of the loop (all requests done, or isRunning
observed false) increments completed and pushes the duration; the
catch block increments failed and bumps errorCounts at
error.code || UNKNOWN_ERROR. -/
def simulateUserSession (sim : SimState) (b : Behavior) (lenDraw : ℚ)
    (running : ℕ → Bool) (oracles : ℕ → List Attempt) (dur : ℕ) : Option SimState :=
  let n : ℕ := (sessionLengthDraw b lenDraw).toNat
  match sessionLoop b.errorTolerance running oracles n 0 sim.statistics with
  | none => none
  | some (s', .ok) =>
      some { sim with completed := sim.completed + 1
                      statistics := { s' with sessionDurations := s'.sessionDurations ++ [dur] } }
  | some (s', .thrown code) =>
      some { sim with failed := sim.failed + 1
                      statistics := { s' with
                        errorCounts := bumpCount s'.errorCounts (code.getD "UNKNOWN_ERROR") } }

/-- The final statistics snapshot returned by
SimulatorService.stopSimulation (the wall-clock duration field is
omitted). -/
structure FinalSnapshot where
  completed : ℕ
  failed : ℕ
  totalRequests : ℕ
  successfulRequests : ℕ
  failedRequests : ℕ
  avgResponseTime : ℕ
deriving Repr, DecidableEq

/-- The snapshot stopSimulation builds from the simulation state at
the moment of the call. -/
def snapshotOf (sim : SimState) : FinalSnapshot :=
  { completed := sim.completed, failed := sim.failed
    totalRequests := sim.statistics.totalRequests
    successfulRequests := sim.statistics.successfulRequests
    failedRequests := sim.statistics.failedRequests
    avgResponseTime := calculateAvgResponseTime sim.statistics.responseTimes }

/-- SimulatorService.stopSimulation on a found simulation: sets
isRunning to false, then immediately computes and returns the
statistics snapshot from the state as it is at that moment; nothing is
awaited between the flag write and the snapshot. -/
def stopSimulation (sim : SimState) : FinalSnapshot × SimState :=
  let sim' := { sim with isRunning := false }
  (snapshotOf sim', sim')

/-- The per-request statistics view returned by
SimulatorService.getSimulationStatus. -/
structure StatusView where
  completed : ℕ
  total : ℤ
  totalRequests : ℕ
  successfulRequests : ℕ
  failedRequests : ℕ
  avgResponseTime : ℕ
deriving Repr, DecidableEq

/-- SimulatorService.getSimulationStatus on a found simulation: a read
snapshot of the current counters with avgResponseTime derived at query
time; mutates nothing. -/
def getSimulationStatus (sim : SimState) : StatusView :=
  { completed := sim.completed, total := sim.sessions
    totalRequests := sim.statistics.totalRequests
    successfulRequests := sim.statistics.successfulRequests
    failedRequests := sim.statistics.failedRequests
    avgResponseTime := calculateAvgResponseTime sim.statistics.responseTimes }

/-! Interleaving model.  The JavaScript runtime is single threaded;
mutations of a simulation interleave only at await points.  In
simulateUserRequest, totalRequests++ happens before the awaited HTTP
call and the matching success or failure counter update happens after
it, so a status read can fall between the two.  An event trace lists
these atomic mutation steps in the order the event loop runs them. -/

/-- One atomic mutation step of a running simulation.
reqStart is the totalRequests++ executed before the awaited call of an
attempt; reqDone is the completion handler of that call (latency push
plus successfulRequests++ or failedRequests++); sessComplete and
sessFail are the session epilogues of simulateUserSession; stopFlag is
the isRunning = false write of stopSimulation. -/
inductive Event where
  | reqStart
  | reqDone (success : Bool) (lat : ℕ)
  | sessComplete (dur : ℕ)
  | sessFail (code : Option String)
  | stopFlag
deriving Repr, DecidableEq

/-- The state mutation of one event. -/
def applyEvent (sim : SimState) : Event → SimState
  | .reqStart =>
      { sim with statistics := { sim.statistics with
          totalRequests := sim.statistics.totalRequests + 1 } }
  | .reqDone true lat =>
      { sim with statistics := { sim.statistics with
          responseTimes := sim.statistics.responseTimes ++ [lat]
          successfulRequests := sim.statistics.successfulRequests + 1 } }
  | .reqDone false lat =>
      { sim with statistics := { sim.statistics with
          responseTimes := sim.statistics.responseTimes ++ [lat]
          failedRequests := sim.statistics.failedRequests + 1 } }
  | .sessComplete dur =>
      { sim with completed := sim.completed + 1
                 statistics := { sim.statistics with
                   sessionDurations := sim.statistics.sessionDurations ++ [dur] } }
  | .sessFail code =>
      { sim with failed := sim.failed + 1
                 statistics := { sim.statistics with
                   errorCounts := bumpCount sim.statistics.errorCounts
                     (code.getD "UNKNOWN_ERROR") } }
  | .stopFlag => { sim with isRunning := false }

/-- Run an event trace from a state. -/
def runTrace (sim : SimState) (t : List Event) : SimState :=
  t.foldl applyEvent sim

/-- Number of attempt starts in a trace. -/
def startCount (t : List Event) : ℕ :=
  t.countP (fun e => match e with | .reqStart => true | _ => false)

/-- Number of attempt completions in a trace. -/
def doneCount (t : List Event) : ℕ :=
  t.countP (fun e => match e with | .reqDone _ _ => true | _ => false)

/-- Number of attempts started but not yet completed after a trace. -/
def inFlight (t : List Event) : ℕ :=
  startCount t - doneCount t

/-- A trace is well formed when every completion handler matches an
attempt started earlier: in every initial segment, completions do not outnumber
starts. -/
def wellFormed (t : List Event) : Bool :=
  (List.range (t.length + 1)).all
    (fun n => doneCount (t.take n) ≤ startCount (t.take n))

/-! Control surface: server/controllers/simulatorController.js keeps a
module-level currentSimulation reference and validates start
parameters. -/

/-- The response of the startSimulation controller: the 400 conflict
response with code SIMULATION_IN_PROGRESS, the 400 validation
responses with codes INVALID_SESSIONS_COUNT and INVALID_DELAY, or the
success response. -/
inductive StartResponse where
  | conflict
  | invalidSessions
  | invalidDelay
  | started
deriving Repr, DecidableEq

/-- The module-level state of simulatorController.js: the
currentSimulation reference (null or a simulation object). -/
structure CtrlState where
  current : Option SimState

/-- The test currentSimulation && currentSimulation.isRunning. -/
def currentlyRunning (st : CtrlState) : Bool :=
  match st.current with
  | some sim => sim.isRunning
  | none => false

/-- The startSimulation controller.  The body parameters default to
sessions = 50 and delay = 1000 when absent.  Checks the conflict
first, then the two closed-interval validations, and otherwise stores
a freshly created running simulation in currentSimulation. -/
def startSimulationCtrl (st : CtrlState) (sessionsParam delayParam : Option ℤ) :
    StartResponse × CtrlState :=
  let sessions := sessionsParam.getD 50
  let delay := delayParam.getD 1000
  if currentlyRunning st then (.conflict, st)
  else if sessions < 1 ∨ sessions > 1000 then (.invalidSessions, st)
  else if delay < 100 ∨ delay > 10000 then (.invalidDelay, st)
  else (.started, ⟨some (newSimulation sessions delay)⟩)

/-! Helper lemmas. -/

theorem selectUserBehavior_eq_ite (r : ℚ) :
    selectUserBehavior r =
      if r ≤ 3/10 then quickBrowser
      else if r ≤ 7/10 then thoroughResearcher
      else if r ≤ 9/10 then casualUser
      else if r ≤ 1 then impatientUser
      else quickBrowser := by
  simp only [selectUserBehavior, USER_BEHAVIORS, selectLoop, quickBrowser,
    thoroughResearcher, casualUser, impatientUser]
  norm_num
  split_ifs <;> rfl

theorem sessionLengthDraw_ge (b : Behavior) (r : ℚ) (h0 : 0 ≤ r)
    (hle : b.sessionLengthMin ≤ b.sessionLengthMax) :
    (b.sessionLengthMin : ℤ) ≤ sessionLengthDraw b r := by
  apply Int.le_floor.mpr
  have hd : (0:ℚ) ≤ (b.sessionLengthMax : ℚ) - (b.sessionLengthMin : ℚ) := by
    rw [sub_nonneg]; exact_mod_cast hle
  push_cast
  nlinarith [mul_nonneg h0 hd]

theorem sessionLengthDraw_le (b : Behavior) (r : ℚ) (h1 : r < 1)
    (hlt : b.sessionLengthMin < b.sessionLengthMax) :
    sessionLengthDraw b r ≤ (b.sessionLengthMax : ℤ) - 1 := by
  have hpos : (0:ℚ) < (b.sessionLengthMax : ℚ) - (b.sessionLengthMin : ℚ) := by
    rw [sub_pos]; exact_mod_cast hlt
  have hx : r * ((b.sessionLengthMax : ℚ) - (b.sessionLengthMin : ℚ)) + (b.sessionLengthMin : ℚ)
      < ((b.sessionLengthMax : ℤ) : ℚ) := by
    push_cast
    nlinarith
  have h2 : sessionLengthDraw b r < (b.sessionLengthMax : ℤ) := Int.floor_lt.mpr hx
  omega

theorem sessionLengthDraw_attains (b : Behavior) (v : ℕ)
    (hlt : b.sessionLengthMin < b.sessionLengthMax)
    (hv1 : b.sessionLengthMin ≤ v) (hv2 : v ≤ b.sessionLengthMax - 1) :
    ∃ q : ℚ, 0 ≤ q ∧ q < 1 ∧ sessionLengthDraw b q = (v : ℤ) := by
  have hpos : (0:ℚ) < (b.sessionLengthMax : ℚ) - (b.sessionLengthMin : ℚ) := by
    rw [sub_pos]; exact_mod_cast hlt
  refine ⟨((v : ℚ) - (b.sessionLengthMin : ℚ))
      / ((b.sessionLengthMax : ℚ) - (b.sessionLengthMin : ℚ)), ?_, ?_, ?_⟩
  · apply div_nonneg _ hpos.le
    rw [sub_nonneg]; exact_mod_cast hv1
  · rw [div_lt_one hpos]
    have hv : (v : ℚ) < (b.sessionLengthMax : ℚ) := by
      have : v < b.sessionLengthMax := by omega
      exact_mod_cast this
    linarith
  · unfold sessionLengthDraw
    rw [div_mul_cancel₀ _ hpos.ne.symm, sub_add_cancel]
    exact Int.floor_natCast v

theorem catalog_session_ranges :
    ∀ b ∈ USER_BEHAVIORS, b.sessionLengthMin < b.sessionLengthMax := by
  decide

theorem retry_parts_1 (tol : ℚ) (a : Attempt) (rest : List Attempt) (s : Stats)
    (lat : ℕ) (code : Option String)
    (ho : a.outcome = ReqOutcome.failure lat code) (hd : a.retryDraw < tol) :
    simulateUserRequest tol (a :: rest) s
      = simulateUserRequest tol rest (recordFailedAttempt s lat) := by
  conv_lhs => unfold simulateUserRequest
  simp only [ho]
  rw [if_pos hd]

theorem retry_parts_2 (tol : ℚ) (a : Attempt) (rest : List Attempt) (s : Stats)
    (lat : ℕ) (code : Option String)
    (ho : a.outcome = ReqOutcome.failure lat code) (hd : ¬ a.retryDraw < tol) :
    simulateUserRequest tol (a :: rest) s
      = some (recordFailedAttempt s lat, ReqResult.thrown code) := by
  conv_lhs => unfold simulateUserRequest
  simp only [ho]
  rw [if_neg hd]

theorem zero_tolerance_session (sim : SimState) (b : Behavior) (lenDraw : ℚ)
    (running : ℕ → Bool) (oracles : ℕ → List Attempt) (dur : ℕ)
    (a : Attempt) (rest : List Attempt) (lat : ℕ) (code : Option String)
    (htol : b.errorTolerance = 0) (hdr : 0 ≤ a.retryDraw)
    (hor : oracles 0 = a :: rest) (ho : a.outcome = ReqOutcome.failure lat code)
    (hrun : running 0 = true) (hn : 1 ≤ (sessionLengthDraw b lenDraw).toNat) :
    ∃ sim', simulateUserSession sim b lenDraw running oracles dur = some sim' ∧
      sim'.failed = sim.failed + 1 ∧
      sim'.statistics.totalRequests = sim.statistics.totalRequests + 1 := by
  obtain ⟨m, hm⟩ : ∃ m, (sessionLengthDraw b lenDraw).toNat = m + 1 :=
    ⟨(sessionLengthDraw b lenDraw).toNat - 1, by omega⟩
  have hreq : simulateUserRequest b.errorTolerance (oracles 0) sim.statistics
      = some (recordFailedAttempt sim.statistics lat, ReqResult.thrown code) := by
    rw [hor]
    conv_lhs => unfold simulateUserRequest
    simp only [ho, htol]
    rw [if_neg (not_lt.mpr hdr)]
  simp only [simulateUserSession, hm]
  unfold sessionLoop
  rw [hrun, hreq]
  simp only [if_true]
  exact ⟨_, rfl, rfl, rfl⟩

theorem session_exactly_one (sim : SimState) (b : Behavior) (lenDraw : ℚ)
    (running : ℕ → Bool) (oracles : ℕ → List Attempt) (dur : ℕ) (sim' : SimState)
    (h : simulateUserSession sim b lenDraw running oracles dur = some sim') :
    (sim'.completed = sim.completed + 1 ∧ sim'.failed = sim.failed) ∨
    (sim'.completed = sim.completed ∧ sim'.failed = sim.failed + 1) := by
  simp only [simulateUserSession] at h
  rcases hl : sessionLoop b.errorTolerance running oracles
      (sessionLengthDraw b lenDraw).toNat 0 sim.statistics with _ | ⟨s', res⟩
  · rw [hl] at h
    simp at h
  · rw [hl] at h
    cases res with
    | ok =>
        simp only [Option.some.injEq] at h
        subst h
        left
        exact ⟨rfl, rfl⟩
    | thrown code =>
        simp only [Option.some.injEq] at h
        subst h
        right
        exact ⟨rfl, rfl⟩

theorem session_stopped_completed (sim : SimState) (b : Behavior) (lenDraw : ℚ)
    (running : ℕ → Bool) (oracles : ℕ → List Attempt) (dur : ℕ)
    (hrun : running 0 = false) :
    ∃ sim', simulateUserSession sim b lenDraw running oracles dur = some sim' ∧
      sim'.completed = sim.completed + 1 ∧ sim'.failed = sim.failed := by
  have hl : sessionLoop b.errorTolerance running oracles
      (sessionLengthDraw b lenDraw).toNat 0 sim.statistics
      = some (sim.statistics, ReqResult.ok) := by
    cases hn : (sessionLengthDraw b lenDraw).toNat with
    | zero => rfl
    | succ m =>
        unfold sessionLoop
        rw [hrun]
        simp
  simp only [simulateUserSession, hl]
  exact ⟨_, rfl, rfl, rfl⟩

theorem session_unknown_error (sim : SimState) (b : Behavior) (lenDraw : ℚ)
    (running : ℕ → Bool) (oracles : ℕ → List Attempt) (dur : ℕ)
    (s' : Stats) (code : Option String) (sim' : SimState)
    (hl : sessionLoop b.errorTolerance running oracles
        (sessionLengthDraw b lenDraw).toNat 0 sim.statistics
        = some (s', ReqResult.thrown code))
    (h : simulateUserSession sim b lenDraw running oracles dur = some sim') :
    sim'.failed = sim.failed + 1 ∧
    sim'.statistics.errorCounts (code.getD "UNKNOWN_ERROR")
      = s'.errorCounts (code.getD "UNKNOWN_ERROR") + 1 := by
  simp only [simulateUserSession, hl, Option.some.injEq] at h
  subst h
  refine ⟨rfl, ?_⟩
  simp [bumpCount]

theorem runTrace_counts (t : List Event) :
    ∀ sim : SimState,
      (runTrace sim t).statistics.totalRequests
        = sim.statistics.totalRequests + startCount t ∧
      (runTrace sim t).statistics.successfulRequests
          + (runTrace sim t).statistics.failedRequests
        = sim.statistics.successfulRequests + sim.statistics.failedRequests + doneCount t := by
  induction t with
  | nil =>
      intro sim
      simp [runTrace, startCount, doneCount]
  | cons e rest ih =>
      intro sim
      obtain ⟨h1, h2⟩ := ih (applyEvent sim e)
      simp only [runTrace, List.foldl_cons] at h1 h2 ⊢
      simp only [startCount, doneCount, List.countP_cons] at h1 h2 ⊢
      cases e with
      | reqStart =>
          simp only [applyEvent] at h1 h2 ⊢
          simp [h1, h2]
          omega
      | reqDone b lat =>
          cases b <;>
            (simp only [applyEvent] at h1 h2 ⊢; simp [h1, h2]; omega)
      | sessComplete dur =>
          simp only [applyEvent] at h1 h2 ⊢
          simp [h1, h2]
      | sessFail code =>
          simp only [applyEvent] at h1 h2 ⊢
          simp [h1, h2]
      | stopFlag =>
          simp only [applyEvent] at h1 h2 ⊢
          simp [h1, h2]

/-! Claim theorems. -/

/-- C1, counterexample: the claim that successfulRequests +
failedRequests equals totalRequests at every Status snapshot fails on
the code.  simulateUserRequest increments totalRequests before the
awaited HTTP call and increments the success or failure counter only
in the completion handler, so a status read taken while the attempt is
in flight (the well-formed one-event trace reqStart) observes
totalRequests 1 with both outcome counters 0. -/
theorem status_counters_gap :
    wellFormed [Event.reqStart] = true ∧
    (getSimulationStatus (runTrace (newSimulation 1 100) [Event.reqStart])).successfulRequests
      + (getSimulationStatus (runTrace (newSimulation 1 100) [Event.reqStart])).failedRequests
      ≠ (getSimulationStatus (runTrace (newSimulation 1 100) [Event.reqStart])).totalRequests := by
  constructor
  · rfl
  · simp [getSimulationStatus, runTrace, applyEvent, newSimulation, emptyStats]

/-- C1, amended: at every Status snapshot of a well-formed run,
successfulRequests + failedRequests is at most totalRequests, and the
two sides are equal at every snapshot taken with no request attempt in
flight, in particular after the run has drained. -/
theorem status_counters_bound (sessions delay : ℤ) (t : List Event)
    (hw : wellFormed t = true) :
    (getSimulationStatus (runTrace (newSimulation sessions delay) t)).successfulRequests
        + (getSimulationStatus (runTrace (newSimulation sessions delay) t)).failedRequests
      ≤ (getSimulationStatus (runTrace (newSimulation sessions delay) t)).totalRequests ∧
    (inFlight t = 0 →
      (getSimulationStatus (runTrace (newSimulation sessions delay) t)).successfulRequests
          + (getSimulationStatus (runTrace (newSimulation sessions delay) t)).failedRequests
        = (getSimulationStatus (runTrace (newSimulation sessions delay) t)).totalRequests) := by
  obtain ⟨h1, h2⟩ := runTrace_counts t (newSimulation sessions delay)
  have hd : doneCount t ≤ startCount t := by
    have hall := List.all_eq_true.mp hw t.length (by simp [List.mem_range])
    simpa [List.take_length] using hall
  simp only [getSimulationStatus]
  constructor
  · rw [h1, h2]
    simp [newSimulation, emptyStats]
    omega
  · intro h0
    unfold inFlight at h0
    rw [h1, h2]
    simp [newSimulation, emptyStats]
    omega

/-- C1, witness: on the drained trace with one started and one
completed attempt the counters agree. -/
theorem status_counters_bound_w :
    (getSimulationStatus (runTrace (newSimulation 1 100)
        [Event.reqStart, Event.reqDone true 5])).successfulRequests
      + (getSimulationStatus (runTrace (newSimulation 1 100)
        [Event.reqStart, Event.reqDone true 5])).failedRequests
      = (getSimulationStatus (runTrace (newSimulation 1 100)
        [Event.reqStart, Event.reqDone true 5])).totalRequests :=
  (status_counters_bound 1 100 [Event.reqStart, Event.reqDone true 5] (by rfl)).2 (by rfl)

/-- C2: evaluation of stopSimulation at the failing input.  With one
request attempt in flight, stopSimulation returns its snapshot at once
(totalRequests 1, failedRequests 0); the in-flight attempt then fails
and mutates the statistics of the stopped simulation (failedRequests
becomes 1), so the snapshot Stop returned was not final.  The code
does not await in-flight sessions before computing the snapshot,
contradicting the claim and the stated design intent. -/
theorem stop_snapshot_not_final :
    (stopSimulation (runTrace (newSimulation 1 100) [Event.reqStart])).1.failedRequests = 0 ∧
    (stopSimulation (runTrace (newSimulation 1 100) [Event.reqStart])).1.totalRequests = 1 ∧
    (runTrace (stopSimulation (runTrace (newSimulation 1 100) [Event.reqStart])).2
        [Event.reqDone false 5]).statistics.failedRequests = 1 ∧
    snapshotOf (runTrace (stopSimulation (runTrace (newSimulation 1 100) [Event.reqStart])).2
        [Event.reqDone false 5])
      ≠ (stopSimulation (runTrace (newSimulation 1 100) [Event.reqStart])).1 := by
  refine ⟨rfl, rfl, rfl, ?_⟩
  intro h
  have hf := congrArg FinalSnapshot.failedRequests h
  simp [snapshotOf, stopSimulation, runTrace, applyEvent, newSimulation, emptyStats] at hf

/-- C3, counterexample: the request executor is not free of Statistics
side effects.  A single successful attempt returns a statistics record
whose totalRequests and successfulRequests are already incremented,
rather than leaving the shared record untouched. -/
theorem simulateUserRequest_direct_mutation :
    simulateUserRequest (8/10) [⟨ReqOutcome.success 50, 0⟩] emptyStats
      = some (recordSuccessfulAttempt emptyStats 50, ReqResult.ok) ∧
    (recordSuccessfulAttempt emptyStats 50).totalRequests = 1 ∧
    (recordSuccessfulAttempt emptyStats 50).successfulRequests = 1 ∧
    emptyStats.totalRequests = 0 ∧
    emptyStats.successfulRequests = 0 :=
  ⟨rfl, rfl, rfl, rfl, rfl⟩

/-- C3, amended: simulateUserRequest mutates the shared Statistics
record directly on every invocation: whenever it returns, it has
strictly increased totalRequests, has incremented successfulRequests
or failedRequests once per attempt, and has appended one latency
sample per attempt; nothing is left for the caller to record. -/
theorem simulateUserRequest_mutates (tol : ℚ) (attempts : List Attempt) :
    ∀ (s s' : Stats) (res : ReqResult),
      simulateUserRequest tol attempts s = some (s', res) →
      s.totalRequests < s'.totalRequests ∧
      s'.successfulRequests + s'.failedRequests
        = s.successfulRequests + s.failedRequests + (s'.totalRequests - s.totalRequests) ∧
      s'.responseTimes.length = s.responseTimes.length + (s'.totalRequests - s.totalRequests) := by
  induction attempts with
  | nil =>
      intro s s' res h
      simp [simulateUserRequest] at h
  | cons a rest ih =>
      intro s s' res h
      unfold simulateUserRequest at h
      cases ha : a.outcome with
      | success lat =>
          rw [ha] at h
          simp only [Option.some.injEq, Prod.mk.injEq] at h
          obtain ⟨h1, _⟩ := h
          subst h1
          simp [recordSuccessfulAttempt]
          omega
      | failure lat code =>
          rw [ha] at h
          simp only at h
          split_ifs at h with hd
          · have hrec := ih _ _ _ h
            simp only [recordFailedAttempt] at hrec
            obtain ⟨t1, t2, t3⟩ := hrec
            simp only [List.length_append, List.length_cons, List.length_nil] at t3
            refine ⟨by omega, by omega, by omega⟩
          · simp only [Option.some.injEq, Prod.mk.injEq] at h
            obtain ⟨h1, _⟩ := h
            subst h1
            simp [recordFailedAttempt]
            omega

/-- C3, witness: the amended statement instantiated at one successful
attempt from fresh statistics. -/
theorem simulateUserRequest_mutates_w :
    emptyStats.totalRequests < (recordSuccessfulAttempt emptyStats 50).totalRequests ∧
    (recordSuccessfulAttempt emptyStats 50).successfulRequests
        + (recordSuccessfulAttempt emptyStats 50).failedRequests
      = emptyStats.successfulRequests + emptyStats.failedRequests
        + ((recordSuccessfulAttempt emptyStats 50).totalRequests - emptyStats.totalRequests) ∧
    (recordSuccessfulAttempt emptyStats 50).responseTimes.length
      = emptyStats.responseTimes.length
        + ((recordSuccessfulAttempt emptyStats 50).totalRequests - emptyStats.totalRequests) :=
  simulateUserRequest_mutates (8/10) [⟨ReqOutcome.success 50, 0⟩] emptyStats
    (recordSuccessfulAttempt emptyStats 50) ReqResult.ok rfl

/-- C4: a start request issued while the current simulation is running
returns the SIMULATION_IN_PROGRESS conflict response and leaves the
controller state, including the running simulation with all its
counters and statistics, completely unchanged, for any requested
parameters. -/
theorem startSimulation_conflict (st : CtrlState) (sessionsParam delayParam : Option ℤ)
    (sim : SimState) (hc : st.current = some sim) (hr : sim.isRunning = true) :
    startSimulationCtrl st sessionsParam delayParam = (StartResponse.conflict, st) := by
  simp [startSimulationCtrl, currentlyRunning, hc, hr]

/-- C4, witness: a concrete conflicting start against a freshly
created running simulation. -/
theorem startSimulation_conflict_w :
    startSimulationCtrl ⟨some (newSimulation 3 100)⟩ (some 5) (some 200) =
      (StartResponse.conflict, ⟨some (newSimulation 3 100)⟩) :=
  startSimulation_conflict _ _ _ (newSimulation 3 100) rfl rfl

/-- C5: with no running simulation, start returns a validation error
if and only if the requested sessions lie outside 1..1000 or the delay
lies outside 100..10000, and for parameters inside both closed
intervals it succeeds and installs a new running simulation with fresh
statistics. -/
theorem startSimulation_validation (st : CtrlState) (sessions delay : ℤ)
    (h : currentlyRunning st = false) :
    (((startSimulationCtrl st (some sessions) (some delay)).1 = StartResponse.invalidSessions ∨
      (startSimulationCtrl st (some sessions) (some delay)).1 = StartResponse.invalidDelay) ↔
      (sessions < 1 ∨ 1000 < sessions ∨ delay < 100 ∨ 10000 < delay)) ∧
    (1 ≤ sessions → sessions ≤ 1000 → 100 ≤ delay → delay ≤ 10000 →
      startSimulationCtrl st (some sessions) (some delay) =
        (StartResponse.started, ⟨some (newSimulation sessions delay)⟩) ∧
      (newSimulation sessions delay).isRunning = true) := by
  constructor
  · simp only [startSimulationCtrl, h, Option.getD_some, if_false, Bool.false_eq_true]
    split_ifs with h1 h2 <;> simp <;> omega
  · intro a b c d
    refine ⟨?_, rfl⟩
    simp only [startSimulationCtrl, h, Option.getD_some, Bool.false_eq_true, if_false]
    split_ifs with h1 h2 <;> first | rfl | omega

/-- C5, witness: an idle controller accepts sessions 5 and delay 200
and installs the new running simulation. -/
theorem startSimulation_validation_w :
    startSimulationCtrl ⟨none⟩ (some 5) (some 200) =
      (StartResponse.started, ⟨some (newSimulation 5 200)⟩) :=
  ((startSimulation_validation ⟨none⟩ 5 200 rfl).2 (by norm_num) (by norm_num)
    (by norm_num) (by norm_num)).1

/-- C6, counterexample: the walk does not return the first profile
whose cumulative weight strictly exceeds the draw.  At the boundary
draw 3/10 the source condition random <= cumulativeWeight selects the
Quick Browser, while the first profile with cumulative weight strictly
greater than 3/10 is the Thorough Researcher. -/
theorem selectUserBehavior_boundary :
    selectUserBehavior (3/10) = quickBrowser ∧
    selectUserBehaviorStrict (3/10) = thoroughResearcher ∧
    selectUserBehavior (3/10) ≠ selectUserBehaviorStrict (3/10) := by
  have e1 : selectUserBehavior (3/10) = quickBrowser := by
    norm_num [selectUserBehavior, selectLoop, USER_BEHAVIORS, quickBrowser]
  have e2 : selectUserBehaviorStrict (3/10) = thoroughResearcher := by
    norm_num [selectUserBehaviorStrict, selectLoopStrict, USER_BEHAVIORS, quickBrowser,
      thoroughResearcher]
  refine ⟨e1, e2, ?_⟩
  rw [e1, e2]
  intro h
  exact absurd (congrArg Behavior.sessionLengthMin h) (by decide)

/-- C6, amended: selectUserBehavior always returns a profile of the
fixed catalog and is a function of the draw (deterministic); the
catalog weights sum to 1, the draw is consulted against cumulative
weights, and the selected profile is the first whose cumulative weight
is at least the draw, with the first catalog entry as fallback for
draws above the total weight. -/
theorem selectUserBehavior_characterization (r : ℚ) :
    selectUserBehavior r ∈ USER_BEHAVIORS ∧
    (USER_BEHAVIORS.map Behavior.weight).sum = 1 ∧
    (r ≤ 3/10 → selectUserBehavior r = quickBrowser) ∧
    (3/10 < r → r ≤ 7/10 → selectUserBehavior r = thoroughResearcher) ∧
    (7/10 < r → r ≤ 9/10 → selectUserBehavior r = casualUser) ∧
    (9/10 < r → r ≤ 1 → selectUserBehavior r = impatientUser) ∧
    (1 < r → selectUserBehavior r = quickBrowser) := by
  rw [selectUserBehavior_eq_ite]
  refine ⟨?_, ?_, ?_, ?_, ?_, ?_, ?_⟩
  · split_ifs <;> simp [USER_BEHAVIORS]
  · norm_num [USER_BEHAVIORS, quickBrowser, thoroughResearcher, casualUser, impatientUser]
  all_goals intros; split_ifs <;> first | rfl | linarith

/-- C6, witness: the draw 1/2 selects the Thorough Researcher, a
member of the catalog. -/
theorem selectUserBehavior_characterization_w :
    selectUserBehavior (1/2) ∈ USER_BEHAVIORS ∧
    selectUserBehavior (1/2) = thoroughResearcher :=
  ⟨(selectUserBehavior_characterization (1/2)).1,
   (selectUserBehavior_characterization (1/2)).2.2.2.1 (by norm_num) (by norm_num)⟩

/-- C7, counterexample: the upper endpoint of the session length range
is never drawn.  For the Quick Browser profile with range 2..5, no
draw in the unit interval yields session length 5, because the source
computes Math.floor of random times (max - min) plus min, which lies
in the half-open interval from min to max. -/
theorem sessionLengthDraw_misses_max :
    quickBrowser.sessionLengthMax = 5 ∧
    ¬ ∃ r : ℚ, 0 ≤ r ∧ r < 1 ∧ sessionLengthDraw quickBrowser r = 5 := by
  refine ⟨rfl, ?_⟩
  rintro ⟨r, h0, h1, he⟩
  have hu := sessionLengthDraw_le quickBrowser r h1 (by decide)
  rw [he] at hu
  norm_num [quickBrowser] at hu

/-- C7, amended: for every catalog profile and every draw in the unit
interval, the drawn session length lies between min and max - 1
inclusive, and every integer in that interval is attained by some
draw; max itself is excluded. -/
theorem sessionLength_draw_range (b : Behavior) (hb : b ∈ USER_BEHAVIORS) :
    (∀ r : ℚ, 0 ≤ r → r < 1 →
      (b.sessionLengthMin : ℤ) ≤ sessionLengthDraw b r ∧
      sessionLengthDraw b r ≤ (b.sessionLengthMax : ℤ) - 1) ∧
    (∀ v : ℕ, b.sessionLengthMin ≤ v → v ≤ b.sessionLengthMax - 1 →
      ∃ q : ℚ, 0 ≤ q ∧ q < 1 ∧ sessionLengthDraw b q = (v : ℤ)) := by
  have hlt := catalog_session_ranges b hb
  exact ⟨fun r h0 h1 =>
      ⟨sessionLengthDraw_ge b r h0 hlt.le, sessionLengthDraw_le b r h1 hlt⟩,
    fun v hv1 hv2 => sessionLengthDraw_attains b v hlt hv1 hv2⟩

/-- C7, witness: for the Quick Browser profile, the draw 1/2 stays in
bounds and the value 4 is attained by some draw. -/
theorem sessionLength_draw_range_w :
    ((quickBrowser.sessionLengthMin : ℤ) ≤ sessionLengthDraw quickBrowser (1/2) ∧
      sessionLengthDraw quickBrowser (1/2) ≤ (quickBrowser.sessionLengthMax : ℤ) - 1) ∧
    (∃ q : ℚ, 0 ≤ q ∧ q < 1 ∧ sessionLengthDraw quickBrowser q = ((4:ℕ) : ℤ)) :=
  ⟨(sessionLength_draw_range quickBrowser (by simp [USER_BEHAVIORS])).1 (1/2)
      (by norm_num) (by norm_num),
   (sessionLength_draw_range quickBrowser (by simp [USER_BEHAVIORS])).2 4
      (by decide) (by decide)⟩

/-- C8: the retry policy of the request executor.  On a failed attempt
whose retry draw is below the error tolerance, the call retries the
same logical request after recording the failed attempt, whose
totalRequests increment is kept (retries count toward totalRequests
but consume no session loop iteration); on a draw at or above the
tolerance the call aborts with the triggering error kind; and a
session with errorTolerance 0 and a failing first attempt is marked
failed after exactly one recorded attempt. -/
theorem retry_policy :
    (∀ (tol : ℚ) (a : Attempt) (rest : List Attempt) (s : Stats) (lat : ℕ)
        (code : Option String),
      a.outcome = ReqOutcome.failure lat code → a.retryDraw < tol →
      simulateUserRequest tol (a :: rest) s
          = simulateUserRequest tol rest (recordFailedAttempt s lat) ∧
      (recordFailedAttempt s lat).totalRequests = s.totalRequests + 1) ∧
    (∀ (tol : ℚ) (a : Attempt) (rest : List Attempt) (s : Stats) (lat : ℕ)
        (code : Option String),
      a.outcome = ReqOutcome.failure lat code → ¬ a.retryDraw < tol →
      simulateUserRequest tol (a :: rest) s
        = some (recordFailedAttempt s lat, ReqResult.thrown code)) ∧
    (∀ (sim : SimState) (b : Behavior) (lenDraw : ℚ) (running : ℕ → Bool)
        (oracles : ℕ → List Attempt) (dur : ℕ) (a : Attempt) (rest : List Attempt)
        (lat : ℕ) (code : Option String),
      b.errorTolerance = 0 → 0 ≤ a.retryDraw →
      oracles 0 = a :: rest → a.outcome = ReqOutcome.failure lat code →
      running 0 = true → 1 ≤ (sessionLengthDraw b lenDraw).toNat →
      ∃ sim', simulateUserSession sim b lenDraw running oracles dur = some sim' ∧
        sim'.failed = sim.failed + 1 ∧
        sim'.statistics.totalRequests = sim.statistics.totalRequests + 1) :=
  ⟨fun tol a rest s lat code ho hd => ⟨retry_parts_1 tol a rest s lat code ho hd, rfl⟩,
   fun tol a rest s lat code ho hd => retry_parts_2 tol a rest s lat code ho hd,
   fun sim b lenDraw running oracles dur a rest lat code htol hdr hor ho hrun hn =>
     zero_tolerance_session sim b lenDraw running oracles dur a rest lat code
       htol hdr hor ho hrun hn⟩

/-- C8, witness: a zero-tolerance behavior whose only attempt fails is
marked failed with exactly one recorded request. -/
theorem retry_policy_w :
    ∃ sim', simulateUserSession (newSimulation 1 100)
        ⟨"Zero Tolerance", 1, 1, 3, 100, 200, 0⟩ 0 (fun _ => true)
        (fun _ => [⟨ReqOutcome.failure 7 (some "ECONNREFUSED"), 1/2⟩]) 9 = some sim' ∧
      sim'.failed = (newSimulation 1 100).failed + 1 ∧
      sim'.statistics.totalRequests = (newSimulation 1 100).statistics.totalRequests + 1 :=
  retry_policy.2.2 (newSimulation 1 100) ⟨"Zero Tolerance", 1, 1, 3, 100, 200, 0⟩ 0
    (fun _ => true) (fun _ => [⟨ReqOutcome.failure 7 (some "ECONNREFUSED"), 1/2⟩]) 9
    ⟨ReqOutcome.failure 7 (some "ECONNREFUSED"), 1/2⟩ [] 7 (some "ECONNREFUSED")
    rfl (by norm_num) rfl rfl rfl (by norm_num [sessionLengthDraw])

/-- C9, counterexample: the reported average response time is not the
arithmetic mean of the recorded samples.  For the samples 1 and 2 the
mean is 3/2 while calculateAvgResponseTime returns the rounded value
2. -/
theorem calcAvg_not_mean :
    calculateAvgResponseTime [1, 2] = 2 ∧
    ((calculateAvgResponseTime [1, 2] : ℚ)
      ≠ (([1, 2] : List ℕ).sum : ℚ) / (([1, 2] : List ℕ).length : ℚ)) := by
  norm_num [calculateAvgResponseTime]

/-- C9, amended: calculateAvgResponseTime returns 0 when no samples
exist, and otherwise returns the arithmetic mean of all recorded
samples rounded to the nearest integer, halves rounding up, the
behavior of Math.round applied to the mean. -/
theorem calcAvg_spec (l : List ℕ) :
    (l = [] → calculateAvgResponseTime l = 0) ∧
    (l ≠ [] → (calculateAvgResponseTime l : ℤ)
        = ⌊(l.sum : ℚ) / (l.length : ℚ) + 1/2⌋) := by
  constructor
  · intro h
    simp [calculateAvgResponseTime, h]
  · intro h
    have hn : l.length ≠ 0 := by simpa using h
    have hq : ((l.length : ℚ)) ≠ 0 := by exact_mod_cast hn
    have h1 : (l.sum : ℚ) / (l.length : ℚ) + 1/2
        = ((2 * l.sum + l.length : ℕ) : ℚ) / ((2 * l.length : ℕ) : ℚ) := by
      push_cast
      field_simp
      ring
    have h2 : ((2 * l.sum + l.length) / (2 * l.length) : ℕ)
        = ⌊((2 * l.sum + l.length : ℕ) : ℚ) / ((2 * l.length : ℕ) : ℚ)⌋₊ :=
      (Nat.floor_div_eq_div _ _).symm
    rw [calculateAvgResponseTime, if_neg hn, h1, h2]
    refine Int.natCast_floor_eq_floor ?_
    positivity

/-- C9, witness: the empty list reports 0 and the samples 10, 20, 30
report their exact mean 20. -/
theorem calcAvg_spec_w :
    calculateAvgResponseTime [] = 0 ∧ (calculateAvgResponseTime [10, 20, 30] : ℤ) = 20 := by
  refine ⟨(calcAvg_spec []).1 rfl, ?_⟩
  rw [(calcAvg_spec [10, 20, 30]).2 (by simp)]
  norm_num

/-- C10: session termination accounting.  Every session that returns
increments exactly one of the completed or failed counters exactly
once; a session whose loop is cut short because isRunning reads false
is counted completed with failed unchanged; and a session aborted by a
thrown error records the failure under the error code, with an absent
code recorded as UNKNOWN_ERROR. -/
theorem session_termination_accounting :
    (∀ (sim : SimState) (b : Behavior) (lenDraw : ℚ) (running : ℕ → Bool)
        (oracles : ℕ → List Attempt) (dur : ℕ) (sim' : SimState),
      simulateUserSession sim b lenDraw running oracles dur = some sim' →
      (sim'.completed = sim.completed + 1 ∧ sim'.failed = sim.failed) ∨
      (sim'.completed = sim.completed ∧ sim'.failed = sim.failed + 1)) ∧
    (∀ (sim : SimState) (b : Behavior) (lenDraw : ℚ) (running : ℕ → Bool)
        (oracles : ℕ → List Attempt) (dur : ℕ),
      running 0 = false →
      ∃ sim', simulateUserSession sim b lenDraw running oracles dur = some sim' ∧
        sim'.completed = sim.completed + 1 ∧ sim'.failed = sim.failed) ∧
    (∀ (sim : SimState) (b : Behavior) (lenDraw : ℚ) (running : ℕ → Bool)
        (oracles : ℕ → List Attempt) (dur : ℕ) (s' : Stats) (code : Option String)
        (sim' : SimState),
      sessionLoop b.errorTolerance running oracles
          (sessionLengthDraw b lenDraw).toNat 0 sim.statistics
          = some (s', ReqResult.thrown code) →
      simulateUserSession sim b lenDraw running oracles dur = some sim' →
      sim'.failed = sim.failed + 1 ∧
      sim'.statistics.errorCounts (code.getD "UNKNOWN_ERROR")
        = s'.errorCounts (code.getD "UNKNOWN_ERROR") + 1) :=
  ⟨fun sim b lenDraw running oracles dur sim' h =>
      session_exactly_one sim b lenDraw running oracles dur sim' h,
   fun sim b lenDraw running oracles dur hrun =>
      session_stopped_completed sim b lenDraw running oracles dur hrun,
   fun sim b lenDraw running oracles dur s' code sim' hl h =>
      session_unknown_error sim b lenDraw running oracles dur s' code sim' hl h⟩

/-- C10, witness: a session observing isRunning false at its first
loop check is counted completed. -/
theorem session_termination_accounting_w :
    ∃ sim', simulateUserSession (newSimulation 2 100) quickBrowser 0
        (fun _ => false) (fun _ => []) 3 = some sim' ∧
      sim'.completed = (newSimulation 2 100).completed + 1 ∧
      sim'.failed = (newSimulation 2 100).failed :=
  session_termination_accounting.2.1 (newSimulation 2 100) quickBrowser 0
    (fun _ => false) (fun _ => []) 3 rfl

end Simulator
